import Mathlib

/-!
Verification of the overlapping-crossfade mixtape assembly engine
(`src/utils.py`, `src/app.py`) of `youtube-fade-mix-songs`.

The engine's timing arithmetic works in fractional seconds (Python floats);
we embed those quantities as rationals `ℚ`.  Audio files are represented by
the data the algorithm actually consumes: each segment is its measured
duration together with its requested fade-in / fade-out lengths (the
`fade_durations` entries of `create_overlapping_mixtape`).  The ffmpeg
commands the code builds are embedded as explicit syntax trees
(`FadeFilter`, `FilterNode`, `EngineCall`) so that theorems can speak about
which filter stages a build emits.
-/

namespace Mixtape

/-- One input segment as the engine sees it: its measured duration
(`get_audio_duration` of the segment file, `utils.py:330`) and the
caller-supplied fade requests (`fade_durations[i]` in
`create_overlapping_mixtape`, a dict with keys `fadeIn` / `fadeOut`). -/
structure Segment where
  duration : ℚ
  fadeIn : ℚ
  fadeOut : ℚ
deriving DecidableEq, Repr

/-- The default used by out-of-range list reads in this development. -/
def Segment.dflt : Segment := ⟨0, 0, 0⟩

/-- An `afade` filter stage as written by `apply_fades` (`utils.py:307-310`)
and by the per-segment loop of `create_overlapping_mixtape`
(`utils.py:398-401`): a fade-in of length `d`, or a fade-out of length `d`
starting at `st`. -/
inductive FadeFilter where
  | fadeInStage (d : ℚ)
  | fadeOutStage (st : ℚ) (d : ℚ)
deriving DecidableEq, Repr

/-- The list of `afade` stages built for one file, mirroring
`utils.py:304-310` (and identically `utils.py:394-401`):
`fade_out_start = max(0, total_duration - fade_out)`; a fade-in stage is
appended when `fade_in > 0`, a fade-out stage when `fade_out > 0`. -/
def fadeFilters (fade_in fade_out total_duration : ℚ) : List FadeFilter :=
  let fade_out_start := max 0 (total_duration - fade_out)
  (if fade_in > 0 then [FadeFilter.fadeInStage fade_in] else []) ++
    (if fade_out > 0 then [FadeFilter.fadeOutStage fade_out_start fade_out] else [])

/-- The fade-in length carried by the fade-in stage of `fadeFilters`,
if one is emitted. -/
def emittedFadeIn (fade_in fade_out total_duration : ℚ) : Option ℚ :=
  (fadeFilters fade_in fade_out total_duration).findSome? fun f =>
    match f with
    | FadeFilter.fadeInStage d => some d
    | FadeFilter.fadeOutStage _ _ => none

/-- Modelled from the spec's audio-engine contract (§4.2/§4.3 step 2: "fade
filters do not alter duration"): the duration of the stream produced by
running a chain of `afade` stages over an input of duration
`input_duration`. -/
def applyFadesOutDur (input_duration : ℚ) (filters : List FadeFilter) : ℚ :=
  filters.foldl (fun d _ => d) input_duration

/-- `total_previous_duration` of iteration `i` of the main loop of
`create_overlapping_mixtape` (`utils.py:413-416`): the inner `for j in
range(i)` accumulates the measured durations of segments `0..i-1`. -/
def total_previous_duration (segs : List Segment) (i : ℕ) : ℚ :=
  (List.range i).foldl (fun acc j => acc + (segs.getD j Segment.dflt).duration) 0

/-- `delay_time` of iteration `i` (`utils.py:418`):
`max(0, total_previous_duration - overlap_duration * i)`. -/
def delay_time (segs : List Segment) (overlap_duration : ℚ) (i : ℕ) : ℚ :=
  max 0 (total_previous_duration segs i - overlap_duration * (i : ℚ))

/-- The timeline start offset the build assigns to segment `i`: segment 0 is
never delayed (`utils.py:409-410` leaves it as the mix anchor), and segment
`i ≥ 1` is delayed by `delay_time`. -/
def startOffset (segs : List Segment) (overlap_duration : ℚ) (i : ℕ) : ℚ :=
  if i = 0 then 0 else delay_time segs overlap_duration i

/-- Python's `int()` on a float: truncation toward zero (`utils.py:421`
applies it to `delay_time * 1000`). -/
def pyInt (q : ℚ) : ℤ :=
  if 0 ≤ q then ⌊q⌋ else ⌈q⌉

/-- The millisecond argument of the `adelay` filter emitted for segment `i`
(`utils.py:421`): `int(delay_time * 1000)`. -/
def delayMs (segs : List Segment) (overlap_duration : ℚ) (i : ℕ) : ℤ :=
  pyInt (delay_time segs overlap_duration i * 1000)

/-- A named stream inside the `-filter_complex` expression:
`[i:a]` (raw input), `[fadedi]`, `[delayedi]`, `[mixedi]`. -/
inductive StreamRef where
  | input (i : ℕ)
  | faded (i : ℕ)
  | delayed (i : ℕ)
  | mixed (i : ℕ)
deriving DecidableEq, Repr

/-- One `;`-separated line of the `-filter_complex` expression built by
`create_overlapping_mixtape` (`utils.py:384-426`). -/
inductive FilterNode where
  | fadeNode (src : StreamRef) (stages : List FadeFilter) (out : StreamRef)
  | adelayNode (src : StreamRef) (ms : ℤ) (out : StreamRef)
  | amixNode (a : StreamRef) (b : StreamRef) (out : StreamRef)
  | aresampleNode (src : StreamRef) (rate : ℕ)
deriving DecidableEq, Repr

/-- `track_ref` of iteration `i` (`utils.py:403-407`): `[fadedi]` when the
segment got fade stages, the raw `[i:a]` otherwise. -/
def track_ref (segs : List Segment) (i : ℕ) : StreamRef :=
  let s := segs.getD i Segment.dflt
  if fadeFilters s.fadeIn s.fadeOut s.duration = [] then StreamRef.input i
  else StreamRef.faded i

/-- The fade line emitted for segment `i` (`utils.py:403-404`): present
exactly when the segment's stage list is nonempty. -/
def fadeNodes (segs : List Segment) (i : ℕ) : List FilterNode :=
  let s := segs.getD i Segment.dflt
  let stages := fadeFilters s.fadeIn s.fadeOut s.duration
  if stages = [] then [] else [FilterNode.fadeNode (StreamRef.input i) stages (StreamRef.faded i)]

/-- `current_output` after iteration `i` of the loop (`utils.py:385, 409-423`):
iteration 0 sets it to segment 0's track ref; iteration `i ≥ 1` to `[mixedi]`. -/
def current_output (segs : List Segment) (i : ℕ) : StreamRef :=
  match i with
  | 0 => track_ref segs 0
  | Nat.succ j => StreamRef.mixed (j + 1)

/-- The filter lines contributed by iteration `i` of the loop
(`utils.py:388-423`): the fade line, then for `i ≥ 1` the `adelay` line
(`utils.py:421`) and the binary `amix` line with `duration=longest`
(`utils.py:422`) mixing the running output with the delayed track. -/
def loopNodes (segs : List Segment) (overlap_duration : ℚ) (i : ℕ) : List FilterNode :=
  fadeNodes segs i ++
    (if i = 0 then []
     else
       [FilterNode.adelayNode (track_ref segs i) (delayMs segs overlap_duration i)
          (StreamRef.delayed i),
        FilterNode.amixNode (current_output segs (i - 1)) (StreamRef.delayed i)
          (StreamRef.mixed i)])

/-- The whole `-filter_complex` expression for the `N ≥ 2` path
(`utils.py:384-428`): the loop lines in order, then the final
`aresample=44100` line (`utils.py:426`). -/
def filter_complex (segs : List Segment) (overlap_duration : ℚ) : List FilterNode :=
  ((List.range segs.length).map (loopNodes segs overlap_duration)).flatten ++
    [FilterNode.aresampleNode (current_output segs (segs.length - 1)) 44100]

/-- One invocation of the external audio engine, as issued by the build.
`execFilterGraph` is the big ffmpeg call of `utils.py:434`; `applyFadesCmd`
the single-segment `apply_fades` call (`utils.py:375`); `concatCmd` the
fallback `concatenate_audio` call (`utils.py:438`), carrying the positions of
the input files in the order they are listed in the concat file
(`utils.py:350-352` writes them in the given order). -/
inductive EngineCall where
  | execFilterGraph (nodes : List FilterNode)
  | applyFadesCmd (stages : List FadeFilter)
  | concatCmd (inputOrder : List ℕ)
  | downloadCmd (url : String)
  | extractCmd (i : ℕ)
deriving DecidableEq, Repr

/-- `create_overlapping_mixtape` (`utils.py:370-440`) as the sequence of
engine calls it issues.  `graphFails` is the outcome of the mix-graph
execution (`result.returncode != 0` at `utils.py:435`): on failure the code
falls back, once, to `concatenate_audio(segment_files, output_file)`
(`utils.py:438`).  Duration probes (`get_audio_duration`) are folded into
the `Segment.duration` fields and not listed as calls. -/
def create_overlapping_mixtape (segs : List Segment) (overlap_duration : ℚ)
    (graphFails : Bool) : List EngineCall :=
  if segs.length = 1 then
    let s := segs.getD 0 Segment.dflt
    [EngineCall.applyFadesCmd (fadeFilters s.fadeIn s.fadeOut s.duration)]
  else
    [EngineCall.execFilterGraph (filter_complex segs overlap_duration)] ++
      (if graphFails then [EngineCall.concatCmd (List.range segs.length)] else [])

/-- Modelled from the spec's audio-engine contract (§3 MixGraph: `Mix2`
output duration is the longest of its two inputs; `Delay` places its input
`startOffset` later; fades and resampling preserve duration): the duration
of the running mix after `Mix2` node `i` of the chain. -/
def mixChainDur (segs : List Segment) (overlap_duration : ℚ) : ℕ → ℚ
  | 0 => (segs.getD 0 Segment.dflt).duration
  | Nat.succ i =>
    max (mixChainDur segs overlap_duration i)
      (startOffset segs overlap_duration (i + 1) + (segs.getD (i + 1) Segment.dflt).duration)

/-- Total output duration of the `N ≥ 2` mix graph under the spec's
duration semantics: the duration of the last mixed stream. -/
def totalMixDuration (segs : List Segment) (overlap_duration : ℚ) : ℚ :=
  mixChainDur segs overlap_duration (segs.length - 1)

/-- One parsed row of the creation form (`app.py:41-51`). -/
structure SongForm where
  youtubeUrl : String
  startTime : ℚ
  endTime : ℚ
  fadeIn : ℚ
  fadeOut : ℚ
deriving DecidableEq, Repr

/-- The default used by out-of-range list reads. -/
def SongForm.dflt : SongForm := ⟨"", 0, 0, 0, 0⟩

/-- Outcome of the `/create` route handler: a flashed error with a redirect
to the form (`app.py:55-56, 60-61, 64-65`) or the success redirect
(`app.py:120-121`). -/
inductive CreateOutcome where
  | errorRedirect (msg : String)
  | successRedirect
deriving DecidableEq, Repr

/-- The per-song validation loop of `app.py:58-65`: first failing check
wins, songs examined in order. -/
def validateSongs (validate : String → Bool) : List SongForm → Option String
  | [] => none
  | s :: rest =>
    if ¬ validate s.youtubeUrl then some "Invalid YouTube URL"
    else if s.endTime ≤ s.startTime then some "End time must be greater than start time"
    else validateSongs validate rest

/-- The `/create` route handler `create_mixtape` (`app.py:34-130`) as the
outcome it reaches together with the external calls it triggers, in order.
`validate` embeds `validate_youtube_url`; `measured i` is the duration the
engine later probes for segment `i`; `graphFails` the mix-graph execution
outcome.  An empty song list is rejected at `app.py:54-56` before anything
else runs; otherwise each song is downloaded (`app.py:80`, the
source-provider collaborator) and its excerpt extracted by the engine
(`app.py:91`), and the build is finished by
`create_overlapping_mixtape(..., overlap_duration=3.0)` (`app.py:113`). -/
def create_mixtape (validate : String → Bool) (measured : ℕ → ℚ) (graphFails : Bool)
    (songs : List SongForm) : CreateOutcome × List EngineCall :=
  if songs = [] then
    (CreateOutcome.errorRedirect "Please add at least one song with a YouTube URL", [])
  else
    match validateSongs validate songs with
    | some msg => (CreateOutcome.errorRedirect msg, [])
    | none =>
      let acquisition :=
        ((List.range songs.length).map fun i =>
            [EngineCall.downloadCmd (songs.getD i SongForm.dflt).youtubeUrl,
             EngineCall.extractCmd i]).flatten
      let segs := (List.range songs.length).map fun i =>
        let s := songs.getD i SongForm.dflt
        ({ duration := measured i, fadeIn := s.fadeIn, fadeOut := s.fadeOut } : Segment)
      (CreateOutcome.successRedirect,
        acquisition ++ create_overlapping_mixtape segs 3 graphFails)

/-! ### Helper lemmas -/

theorem total_previous_duration_succ (segs : List Segment) (i : ℕ) :
    total_previous_duration segs (i + 1) =
      total_previous_duration segs i + (segs.getD i Segment.dflt).duration := by
  simp [total_previous_duration, List.range_succ]

theorem getD_duration_nonneg (segs : List Segment)
    (hd : ∀ s ∈ segs, 0 ≤ s.duration) (i : ℕ) :
    0 ≤ (segs.getD i Segment.dflt).duration := by
  by_cases h : i < segs.length
  · rw [List.getD_eq_getElem _ _ h]
    exact hd _ (List.getElem_mem h)
  · rw [List.getD_eq_default _ _ (le_of_not_lt h)]
    exact le_refl 0

theorem total_previous_duration_nonneg (segs : List Segment)
    (hd : ∀ s ∈ segs, 0 ≤ s.duration) : ∀ i, 0 ≤ total_previous_duration segs i
  | 0 => by simp [total_previous_duration]
  | (i + 1) => by
    rw [total_previous_duration_succ]
    have h1 := total_previous_duration_nonneg segs hd i
    have h2 := getD_duration_nonneg segs hd i
    linarith

theorem total_previous_duration_eq_sum_take (segs : List Segment) :
    ∀ i, i ≤ segs.length →
      total_previous_duration segs i = ((segs.take i).map Segment.duration).sum
  | 0, _ => by simp [total_previous_duration]
  | (i + 1), h => by
    have hi : i < segs.length := h
    have hmi : i < (segs.map Segment.duration).length := by simpa using hi
    rw [total_previous_duration_succ,
      total_previous_duration_eq_sum_take segs i (le_of_lt hi),
      List.map_take, List.map_take, List.sum_take_succ _ _ hmi,
      List.getD_eq_getElem _ _ hi, List.getElem_map]

theorem applyFadesOutDur_eq (d : ℚ) (stages : List FadeFilter) :
    applyFadesOutDur d stages = d := by
  induction stages generalizing d with
  | nil => rfl
  | cons a l ih => simp [applyFadesOutDur] at ih ⊢

theorem delay_time_nonneg (segs : List Segment) (o : ℚ) (i : ℕ) :
    0 ≤ delay_time segs o i := by
  rw [delay_time]
  exact le_max_left _ _

/-! ### The claims -/

/-- C1: the build anchors segment 0 at timeline offset 0, and assigns
segment `i ≥ 1` the offset `max(0, (d_0 + ⋯ + d_{i-1}) - overlap·i)` over
the measured durations; for durations [30, 25, 20] and overlap 3 the
offsets are [0, 27, 49]. -/
theorem startOffset_formula :
    (∀ (segs : List Segment) (o : ℚ), startOffset segs o 0 = 0) ∧
    (∀ (segs : List Segment) (o : ℚ) (i : ℕ), 0 < i → i ≤ segs.length →
      startOffset segs o i =
        max 0 (((segs.take i).map Segment.duration).sum - o * (i : ℚ))) ∧
    startOffset [⟨30, 2, 2⟩, ⟨25, 2, 2⟩, ⟨20, 2, 2⟩] 3 0 = 0 ∧
    startOffset [⟨30, 2, 2⟩, ⟨25, 2, 2⟩, ⟨20, 2, 2⟩] 3 1 = 27 ∧
    startOffset [⟨30, 2, 2⟩, ⟨25, 2, 2⟩, ⟨20, 2, 2⟩] 3 2 = 49 := by
  refine ⟨fun segs o => by simp [startOffset], fun segs o i hi hlen => ?_, ?_, ?_, ?_⟩
  · rw [startOffset, if_neg (Nat.pos_iff_ne_zero.mp hi), delay_time,
      total_previous_duration_eq_sum_take segs i hlen]
  all_goals
    norm_num [startOffset, delay_time, total_previous_duration, List.range_succ, max_def]

/-- `startOffset_formula` applied at a concrete build of three segments. -/
theorem startOffset_formula_witness :
    startOffset [⟨30, 2, 2⟩, ⟨25, 2, 2⟩, ⟨20, 2, 2⟩] 3 2 =
      max 0 (((([⟨30, 2, 2⟩, ⟨25, 2, 2⟩, ⟨20, 2, 2⟩] : List Segment).take 2).map
          Segment.duration).sum - 3 * ((2 : ℕ) : ℚ)) :=
  startOffset_formula.2.1 _ 3 2 (by norm_num) (by norm_num)

/-- C6: with a nonnegative overlap no larger than any measured duration,
the first offset is 0 and consecutive segment offsets never decrease. -/
theorem startOffset_monotone (segs : List Segment) (o : ℚ) (_ho : 0 ≤ o)
    (hd : ∀ s ∈ segs, o ≤ s.duration) :
    startOffset segs o 0 = 0 ∧
    ∀ i, i + 1 < segs.length → startOffset segs o i ≤ startOffset segs o (i + 1) := by
  refine ⟨by simp [startOffset], fun i hi => ?_⟩
  have hii : i < segs.length := Nat.lt_of_succ_lt hi
  have hdi : o ≤ (segs.getD i Segment.dflt).duration := by
    rw [List.getD_eq_getElem _ _ hii]
    exact hd _ (List.getElem_mem hii)
  rcases Nat.eq_zero_or_pos i with h0 | hp
  · subst h0
    have h00 : startOffset segs o 0 = 0 := by simp [startOffset]
    rw [h00, startOffset, if_neg (by omega : ¬(0 + 1 = 0))]
    exact delay_time_nonneg segs o 1
  · rw [startOffset, if_neg (Nat.pos_iff_ne_zero.mp hp), startOffset,
      if_neg (by omega : ¬(i + 1 = 0))]
    rw [delay_time, delay_time]
    refine max_le_max (le_refl 0) ?_
    rw [total_previous_duration_succ]
    push_cast
    linarith

/-- `startOffset_monotone` applied at a concrete build of three segments. -/
theorem startOffset_monotone_witness :
    startOffset [⟨30, 2, 2⟩, ⟨25, 2, 2⟩, ⟨20, 2, 2⟩] 3 1 ≤
      startOffset [⟨30, 2, 2⟩, ⟨25, 2, 2⟩, ⟨20, 2, 2⟩] 3 2 :=
  (startOffset_monotone _ 3 (by norm_num)
    (by intro s hs; fin_cases hs <;> norm_num)).2 1 (by norm_num)

theorem mixChainDur_zero_overlap (segs : List Segment)
    (hd : ∀ s ∈ segs, 0 ≤ s.duration) :
    ∀ i, i < segs.length → mixChainDur segs 0 i = total_previous_duration segs (i + 1)
  | 0, _ => by
    simp [mixChainDur, total_previous_duration, List.range_succ]
  | (i + 1), h => by
    have ih := mixChainDur_zero_overlap segs hd i (Nat.lt_of_succ_lt h)
    have hoff : startOffset segs 0 (i + 1) = total_previous_duration segs (i + 1) := by
      rw [startOffset, if_neg (by omega : ¬(i + 1 = 0)), delay_time, zero_mul, sub_zero]
      exact max_eq_right (total_previous_duration_nonneg segs hd (i + 1))
    show max (mixChainDur segs 0 i)
        (startOffset segs 0 (i + 1) + (segs.getD (i + 1) Segment.dflt).duration) =
      total_previous_duration segs (i + 2)
    rw [ih, hoff, total_previous_duration_succ segs (i + 1)]
    exact max_eq_right (le_add_of_nonneg_right (getD_duration_nonneg segs hd (i + 1)))

/-- C7: with overlap 0 and N ≥ 2 segments, the mix graph's total output
duration — the running maximum of `startOffset[i] + duration[i]` produced by
the chained `Mix2` nodes under the duration-equals-longest rule — equals
the sum of the measured segment durations. -/
theorem totalMixDuration_zero_overlap (segs : List Segment) (hlen : 2 ≤ segs.length)
    (hd : ∀ s ∈ segs, 0 ≤ s.duration) :
    totalMixDuration segs 0 = (segs.map Segment.duration).sum := by
  have h1 : segs.length - 1 < segs.length := by omega
  rw [totalMixDuration, mixChainDur_zero_overlap segs hd _ h1]
  have h2 : segs.length - 1 + 1 = segs.length := by omega
  rw [h2, total_previous_duration_eq_sum_take segs segs.length (le_refl _),
    List.take_length]

/-- `totalMixDuration_zero_overlap` applied at a concrete two-segment build. -/
theorem totalMixDuration_zero_overlap_witness :
    totalMixDuration [⟨30, 2, 2⟩, ⟨25, 2, 2⟩] 0 =
      (([⟨30, 2, 2⟩, ⟨25, 2, 2⟩] : List Segment).map Segment.duration).sum :=
  totalMixDuration_zero_overlap _ (by norm_num)
    (by intro s hs; fin_cases hs <;> norm_num)

/-- C3: when the engine reports failure executing the mix graph, the build
issues exactly one graph execution followed by exactly one fallback
concatenation whose inputs are the segment files in their given order, and
nothing after it — the mix graph is never re-attempted. -/
theorem graph_failure_single_fallback (segs : List Segment) (o : ℚ)
    (hlen : 2 ≤ segs.length) :
    create_overlapping_mixtape segs o true =
      [EngineCall.execFilterGraph (filter_complex segs o),
       EngineCall.concatCmd (List.range segs.length)] ∧
    (create_overlapping_mixtape segs o true).countP
      (fun c => match c with
        | EngineCall.execFilterGraph _ => true
        | _ => false) = 1 := by
  have h1 : ¬ segs.length = 1 := by omega
  constructor
  · simp [create_overlapping_mixtape, h1]
  · simp [create_overlapping_mixtape, h1, List.countP, List.countP.go]

/-- `graph_failure_single_fallback` applied at a concrete two-segment build. -/
theorem graph_failure_single_fallback_witness :
    create_overlapping_mixtape [⟨30, 2, 2⟩, ⟨25, 2, 2⟩] 3 true =
      [EngineCall.execFilterGraph (filter_complex [⟨30, 2, 2⟩, ⟨25, 2, 2⟩] 3),
       EngineCall.concatCmd (List.range 2)] :=
  (graph_failure_single_fallback [⟨30, 2, 2⟩, ⟨25, 2, 2⟩] 3 (by norm_num)).1

/-- C4: a single-segment build issues only the fade command for that
segment — no mix-graph execution (the sole carrier of delay, mix and
resample nodes) and no concatenation — and its output duration equals the
segment's measured duration. -/
theorem single_segment_passthrough (s : Segment) (o : ℚ) (graphFails : Bool) :
    create_overlapping_mixtape [s] o graphFails =
      [EngineCall.applyFadesCmd (fadeFilters s.fadeIn s.fadeOut s.duration)] ∧
    (∀ nodes, EngineCall.execFilterGraph nodes ∉ create_overlapping_mixtape [s] o graphFails) ∧
    (∀ order, EngineCall.concatCmd order ∉ create_overlapping_mixtape [s] o graphFails) ∧
    applyFadesOutDur s.duration (fadeFilters s.fadeIn s.fadeOut s.duration) = s.duration := by
  have h : create_overlapping_mixtape [s] o graphFails =
      [EngineCall.applyFadesCmd (fadeFilters s.fadeIn s.fadeOut s.duration)] := by
    simp [create_overlapping_mixtape]
  refine ⟨h, ?_, ?_, applyFadesOutDur_eq _ _⟩
  · intro nodes hmem
    rw [h] at hmem
    simp at hmem
  · intro order hmem
    rw [h] at hmem
    simp at hmem

/-- C5: the fade-out stage always starts at `max(0, duration − fadeOut)`;
a 40-second segment with fadeIn 2 and fadeOut 5 gets the stages
[fade-in 2, fade-out at 35 of length 5] and keeps output duration 40. -/
theorem fade_out_start_formula :
    (∀ fade_in fade_out total_duration : ℚ, 0 < fade_out →
      FadeFilter.fadeOutStage (max 0 (total_duration - fade_out)) fade_out ∈
        fadeFilters fade_in fade_out total_duration) ∧
    fadeFilters 2 5 40 = [FadeFilter.fadeInStage 2, FadeFilter.fadeOutStage 35 5] ∧
    applyFadesOutDur 40 (fadeFilters 2 5 40) = 40 := by
  refine ⟨fun fi fo d h => ?_, by norm_num [fadeFilters, max_def], applyFadesOutDur_eq _ _⟩
  simp only [fadeFilters]
  split_ifs <;> simp_all

/-- `fade_out_start_formula` applied at the concrete 40-second scenario. -/
theorem fade_out_start_formula_witness :
    FadeFilter.fadeOutStage (max 0 ((40 : ℚ) - 5)) 5 ∈ fadeFilters 2 5 40 :=
  fade_out_start_formula.1 2 5 40 (by norm_num)

/-- C8: a fade-in stage is emitted iff the requested fade-in is positive, a
fade-out stage iff the requested fade-out is positive, and a segment with
neither gets no fade line and is passed to the mix as its raw input
stream. -/
theorem fade_stage_emission :
    (∀ fade_in fade_out total_duration : ℚ,
      (∃ d, FadeFilter.fadeInStage d ∈ fadeFilters fade_in fade_out total_duration) ↔
        0 < fade_in) ∧
    (∀ fade_in fade_out total_duration : ℚ,
      (∃ st d, FadeFilter.fadeOutStage st d ∈ fadeFilters fade_in fade_out total_duration) ↔
        0 < fade_out) ∧
    (∀ (segs : List Segment) (i : ℕ),
      (segs.getD i Segment.dflt).fadeIn ≤ 0 → (segs.getD i Segment.dflt).fadeOut ≤ 0 →
        fadeNodes segs i = [] ∧ track_ref segs i = StreamRef.input i) := by
  refine ⟨fun fi fo d => ?_, fun fi fo d => ?_, fun segs i h1 h2 => ?_⟩
  · simp only [fadeFilters]
    split_ifs with h1 h2 <;> simp_all
  · simp only [fadeFilters]
    split_ifs with h1 h2 <;> simp_all
  · have hempty : fadeFilters (segs.getD i Segment.dflt).fadeIn
        (segs.getD i Segment.dflt).fadeOut (segs.getD i Segment.dflt).duration = [] := by
      simp only [fadeFilters]
      rw [if_neg (not_lt.mpr h1), if_neg (not_lt.mpr h2)]
      rfl
    constructor
    · simp only [fadeNodes]
      rw [hempty]
      simp
    · simp only [track_ref]
      rw [hempty]
      simp

/-- `fade_stage_emission` applied to a segment requesting no fades. -/
theorem fade_stage_emission_witness :
    fadeNodes [⟨10, 0, 0⟩] 0 = [] ∧ track_ref [⟨10, 0, 0⟩] 0 = StreamRef.input 0 :=
  fade_stage_emission.2.2 [⟨10, 0, 0⟩] 0 (le_refl 0) (le_refl 0)

/-- C2 as stated is false at its own concrete scenario: a requested fade-in
of 100 on a 10-second segment is emitted with duration 100, not
`min(max(100, 0), 10) = 10`. -/
theorem fadeIn_clamp_counterexample :
    emittedFadeIn 100 0 10 = some 100 ∧
    emittedFadeIn 100 0 10 ≠ some (min (max (100 : ℚ) 0) 10) := by
  constructor <;> norm_num [emittedFadeIn, fadeFilters, List.findSome?]

/-- C2 amended: the fade-in duration actually applied is the requested value
whenever it is positive — the code never clamps it to the segment's
measured duration — and no fade-in stage is emitted for a non-positive
request. -/
theorem emittedFadeIn_unclamped (fade_in fade_out total_duration : ℚ) :
    emittedFadeIn fade_in fade_out total_duration =
      if 0 < fade_in then some fade_in else none := by
  simp only [emittedFadeIn, fadeFilters]
  split_ifs with h1 h2 h2 <;> simp [List.findSome?]

/-- C10: the delay emitted for segment `i ≥ 1` is `int(delay_time · 1000)`
milliseconds — the floor, since `delay_time` is nonnegative — so the
applied delay sits within one millisecond below the exact offset, and
strictly below it whenever the offset in milliseconds is not an integer. -/
theorem delay_truncated_to_ms (segs : List Segment) (o : ℚ) (i : ℕ)
    (h1 : 1 ≤ i) (h2 : i < segs.length) :
    FilterNode.adelayNode (track_ref segs i) (delayMs segs o i) (StreamRef.delayed i) ∈
      filter_complex segs o ∧
    delayMs segs o i = ⌊delay_time segs o i * 1000⌋ ∧
    (delayMs segs o i : ℚ) / 1000 ≤ delay_time segs o i ∧
    delay_time segs o i - (delayMs segs o i : ℚ) / 1000 < 1 / 1000 ∧
    ((¬ ∃ z : ℤ, (z : ℚ) = delay_time segs o i * 1000) →
      (delayMs segs o i : ℚ) / 1000 < delay_time segs o i) := by
  have hq : (0 : ℚ) ≤ delay_time segs o i * 1000 :=
    mul_nonneg (delay_time_nonneg segs o i) (by norm_num)
  have hfloor : delayMs segs o i = ⌊delay_time segs o i * 1000⌋ := by
    rw [delayMs, pyInt, if_pos hq]
  have hle : ((⌊delay_time segs o i * 1000⌋ : ℤ) : ℚ) ≤ delay_time segs o i * 1000 :=
    Int.floor_le _
  have hlt : delay_time segs o i * 1000 < ⌊delay_time segs o i * 1000⌋ + 1 :=
    Int.lt_floor_add_one _
  refine ⟨?_, hfloor, ?_, ?_, ?_⟩
  · rw [filter_complex]
    apply List.mem_append_left
    rw [List.mem_flatten]
    refine ⟨loopNodes segs o i, List.mem_map_of_mem _ (List.mem_range.mpr h2), ?_⟩
    rw [loopNodes]
    apply List.mem_append_right
    rw [if_neg (by omega : ¬ i = 0)]
    exact List.mem_cons_self _ _
  · rw [hfloor]
    linarith
  · rw [hfloor]
    linarith
  · intro hnint
    have hne : ((⌊delay_time segs o i * 1000⌋ : ℤ) : ℚ) ≠ delay_time segs o i * 1000 :=
      fun hc => hnint ⟨⌊delay_time segs o i * 1000⌋, hc⟩
    have hsl : ((⌊delay_time segs o i * 1000⌋ : ℤ) : ℚ) < delay_time segs o i * 1000 :=
      lt_of_le_of_ne hle hne
    rw [hfloor]
    linarith

/-- `delay_truncated_to_ms` applied at a build whose second segment has the
fractional offset 1/6 s (166.66… ms, truncated to 166 ms). -/
theorem delay_truncated_to_ms_witness :
    (delayMs [⟨1/2, 0, 0⟩, ⟨1, 0, 0⟩] (1/3) 1 : ℚ) / 1000 ≤
      delay_time [⟨1/2, 0, 0⟩, ⟨1, 0, 0⟩] (1/3) 1 :=
  (delay_truncated_to_ms [⟨1/2, 0, 0⟩, ⟨1, 0, 0⟩] (1/3) 1 (le_refl 1) (by norm_num)).2.2.1

/-- C9: a request with zero songs is rejected with the empty-input error
message and with no external call — no download, no probe, no graph
execution, no concatenation. -/
theorem empty_input_rejected (validate : String → Bool) (measured : ℕ → ℚ)
    (graphFails : Bool) :
    create_mixtape validate measured graphFails [] =
      (CreateOutcome.errorRedirect "Please add at least one song with a YouTube URL", []) := by
  simp [create_mixtape]

end Mixtape
